import Mathlib

/-!
# Verification of the event-handler core of RoguelikeDungeon

Shallow embedding of `src/input_handlers.py`: the key/action mapping tables,
the turn-advance driver `handle_action`, the modal-prompt handler, the
main-play dispatcher, the game-over handler and the history viewer with its
cursor algorithm.  Side effects on the engine (message-log appends, the
delegated enemy-turn pass and visibility refresh, handler swaps) are made
explicit: the engine is a record threaded through every operation, and the
delegated calls are recorded in an ordered trace.
-/

namespace Roguelike

/-! ## Key constants

Key codes are the SDL keycodes exposed by `tcod.event`; the spec treats them
as an opaque enumeration supplied by the input layer.  Only their pairwise
distinctness matters. -/

def K_UP : Nat := 1073741906
def K_DOWN : Nat := 1073741905
def K_LEFT : Nat := 1073741904
def K_RIGHT : Nat := 1073741903
def K_HOME : Nat := 1073741898
def K_END : Nat := 1073741901
def K_PAGEUP : Nat := 1073741899
def K_PAGEDOWN : Nat := 1073741902
def K_KP_1 : Nat := 1073741913
def K_KP_2 : Nat := 1073741914
def K_KP_3 : Nat := 1073741915
def K_KP_4 : Nat := 1073741916
def K_KP_5 : Nat := 1073741917
def K_KP_6 : Nat := 1073741918
def K_KP_7 : Nat := 1073741919
def K_KP_8 : Nat := 1073741920
def K_KP_9 : Nat := 1073741921
def K_h : Nat := 104
def K_j : Nat := 106
def K_k : Nat := 107
def K_l : Nat := 108
def K_y : Nat := 121
def K_u : Nat := 117
def K_b : Nat := 98
def K_n : Nat := 110
def K_v : Nat := 118
def K_g : Nat := 103
def K_PERIOD : Nat := 46
def K_CLEAR : Nat := 1073741980
def K_ESCAPE : Nat := 27
def K_LSHIFT : Nat := 1073742049
def K_RSHIFT : Nat := 1073742053
def K_LCTRL : Nat := 1073742048
def K_RCTRL : Nat := 1073742052
def K_LALT : Nat := 1073742050
def K_RALT : Nat := 1073742054

/-! ## Static key tables (`MOVE_KEYS`, `WAIT_KEYS`, `CURSOR_Y_KEYS`)

The Python dicts become lookup functions; `key ∈ dict` becomes
`table key ≠ none` (resp. a boolean for the wait set). -/

/-- `MOVE_KEYS` of `input_handlers.py`: key to signed 2D offset. -/
def MOVE_KEYS (key : Nat) : Option (Int × Int) :=
  -- Arrow keys.
  if key = K_UP then some (0, -1)
  else if key = K_DOWN then some (0, 1)
  else if key = K_LEFT then some (-1, 0)
  else if key = K_RIGHT then some (1, 0)
  else if key = K_HOME then some (-1, -1)
  else if key = K_END then some (-1, 1)
  else if key = K_PAGEUP then some (1, -1)
  else if key = K_PAGEDOWN then some (1, 1)
  -- Numpad keys.
  else if key = K_KP_1 then some (-1, 1)
  else if key = K_KP_2 then some (0, 1)
  else if key = K_KP_3 then some (1, 1)
  else if key = K_KP_4 then some (-1, 0)
  else if key = K_KP_5 then some (0, 0)
  else if key = K_KP_6 then some (1, 0)
  else if key = K_KP_7 then some (-1, -1)
  else if key = K_KP_8 then some (0, -1)
  else if key = K_KP_9 then some (1, -1)
  -- Vi keys.
  else if key = K_h then some (-1, 0)
  else if key = K_j then some (0, 1)
  else if key = K_k then some (0, -1)
  else if key = K_l then some (1, 0)
  else if key = K_y then some (-1, -1)
  else if key = K_u then some (1, -1)
  else if key = K_b then some (-1, 1)
  else if key = K_n then some (1, 1)
  else none

/-- `WAIT_KEYS` of `input_handlers.py`: the wait-in-place key set. -/
def WAIT_KEYS (key : Nat) : Bool :=
  key = K_PERIOD || key = K_KP_5 || key = K_CLEAR

/-- `CURSOR_Y_KEYS` of `input_handlers.py`: vertical navigation key to step. -/
def CURSOR_Y_KEYS (key : Nat) : Option Int :=
  if key = K_UP then some (-1)
  else if key = K_DOWN then some 1
  else if key = K_PAGEUP then some (-10)
  else if key = K_PAGEDOWN then some 10
  else none

/-- Modifier-key set tested inline by `AskUserEventHandler.ev_keydown`. -/
def MODIFIER_KEYS (key : Nat) : Bool :=
  key = K_LSHIFT || key = K_RSHIFT || key = K_LCTRL ||
  key = K_RCTRL || key = K_LALT || key = K_RALT

/-! ## Data model -/

/-- Modelled from the spec: message styles of the `color` module (not under
`src/`); only the failure style `color.impossible` is distinguished here. -/
inductive Color
  | impossible
  | other
deriving DecidableEq, Repr

/-- A delegated engine operation, recorded in an ordered trace:
`engine.handle_enemy_turns()` and `engine.update_fov()`. -/
inductive EngineCall
  | handleEnemyTurns
  | updateFov
deriving DecidableEq, Repr

/-- The `HistoryViewer` handler's own state: `log_length` is the snapshot of
the message count at entry, `cursor` the scroll index (`log_length - 1` can
be `-1`, so the cursor is an integer). -/
structure HistoryViewer where
  log_length : Nat
  cursor : Int
deriving DecidableEq, Repr

/-- The identity of the active handler (`engine.event_handler`).  The
`HistoryViewer` variant carries the viewer's own mutable state. -/
inductive HandlerState
  | mainGame
  | askUser
  | gameOver
  | historyViewer (hv : HistoryViewer)
deriving DecidableEq, Repr

/-- The engine state visible to the handlers: an opaque world component `W`
(player position, map, entities) touched only by `Action.perform`, the
message log, the ordered trace of delegated calls, the player actor's
identity and the active handler. -/
structure Engine (W : Type) where
  world : W
  player : Nat
  messageLog : List (String × Color)
  calls : List EngineCall
  eventHandler : HandlerState
deriving DecidableEq, Repr

/-- Modelled from the spec: the outcome of `Action.perform()` (the `actions`
module is not under `src/`).  Execution either succeeds, mutating the world,
or raises the recoverable `Impossible` condition carrying a display string
and leaving the game state exactly as before the attempt. -/
inductive PerformResult (W : Type)
  | ok (w : W)
  | impossible (msg : String)
deriving DecidableEq, Repr

/-- Modelled from the spec: an executable action, reduced to its single
`perform` operation on the world. -/
def Action (W : Type) : Type := W → PerformResult W

/-- The symbolic actions constructed by the key dispatchers:
`BumpAction(player, dx, dy)`, `WaitAction(player)`, `PickupAction(player)`,
`EscapeAction(player)`.  Each records the actor it targets. -/
inductive GameAction
  | bump (actor : Nat) (dx dy : Int)
  | wait (actor : Nat)
  | pickup (actor : Nat)
  | escape (actor : Nat)
deriving DecidableEq, Repr

/-- Result of `HistoryViewer.ev_keydown`: stay in the viewer with updated
state, or swap the active handler back to the main game. -/
inductive HistoryKeyResult
  | stay (hv : HistoryViewer)
  | exitToMain
deriving DecidableEq, Repr

/-- Result of `GameOverEventHandler.ev_keydown`: `terminate` models
`raise SystemExit()`, otherwise the (absent) action and the unchanged
engine are returned. -/
inductive DispatchOutcome (W : Type)
  | terminate
  | result (a : Option GameAction) (engine : Engine W)
deriving DecidableEq, Repr

/-! ## Handler operations -/

/-- `EventHandler.handle_action`: run the dispatched action if any; on the
recoverable `Impossible` condition log its message in the impossible style
and skip the turn; on success run the enemy turns, then refresh the field of
view, and report a consumed turn. -/
def EventHandler.handle_action {W : Type} (engine : Engine W)
    (action : Option (Action W)) : Engine W × Bool :=
  match action with
  | none => (engine, false)
  | some act =>
    match act engine.world with
    | PerformResult.impossible msg =>
        ({ engine with
            messageLog := engine.messageLog ++ [(msg, Color.impossible)] },
         false)  -- Skip enemy turn on exceptions.
    | PerformResult.ok w =>
        let e1 : Engine W := { engine with world := w }
        let e2 : Engine W :=
          { e1 with calls := e1.calls ++ [EngineCall.handleEnemyTurns] }
        let e3 : Engine W :=
          { e2 with calls := e2.calls ++ [EngineCall.updateFov] }
        (e3, true)

/-- `AskUserEventHandler.handle_action`: return to the main event handler
when a valid action was performed. -/
def AskUserEventHandler.handle_action {W : Type} (engine : Engine W)
    (action : Option (Action W)) : Engine W × Bool :=
  let r := EventHandler.handle_action engine action
  if r.2 then
    ({ r.1 with eventHandler := HandlerState.mainGame }, true)
  else
    (r.1, false)

/-- `AskUserEventHandler.on_exit`: by default return to the main event
handler, producing no action. -/
def AskUserEventHandler.on_exit {W : Type} (engine : Engine W) :
    Option GameAction × Engine W :=
  (none, { engine with eventHandler := HandlerState.mainGame })

/-- `AskUserEventHandler.ev_keydown`: by default any key exits this input
handler, except the pure modifier keys which are ignored. -/
def AskUserEventHandler.ev_keydown {W : Type} (engine : Engine W)
    (key : Nat) : Option GameAction × Engine W :=
  if MODIFIER_KEYS key then  -- Ignore modifier keys.
    (none, engine)
  else
    AskUserEventHandler.on_exit engine

/-- `HistoryViewer.__init__`: snapshot the log length and start the cursor
on the newest message. -/
def HistoryViewer.init {W : Type} (engine : Engine W) : HistoryViewer :=
  { log_length := engine.messageLog.length
    cursor := (engine.messageLog.length : Int) - 1 }

/-- `MainGameEventHandler.ev_keydown`: movement keys give a bump action with
the mapped offset, wait keys a wait action, `v` swaps to the history viewer,
`g` gives a pickup action, escape an escape action; anything else is
ignored. -/
def MainGameEventHandler.ev_keydown {W : Type} (engine : Engine W)
    (key : Nat) : Option GameAction × Engine W :=
  match MOVE_KEYS key with
  | some (dx, dy) => (some (GameAction.bump engine.player dx dy), engine)
  | none =>
    if WAIT_KEYS key then
      (some (GameAction.wait engine.player), engine)
    else if key = K_v then
      (none, { engine with
                eventHandler := HandlerState.historyViewer
                  (HistoryViewer.init engine) })
    else if key = K_g then
      (some (GameAction.pickup engine.player), engine)
    else if key = K_ESCAPE then
      (some (GameAction.escape engine.player), engine)
    else
      (none, engine)

/-- `GameOverEventHandler.ev_keydown`: escape raises `SystemExit`; every
other key falls through, returning no action and touching nothing. -/
def GameOverEventHandler.ev_keydown {W : Type} (engine : Engine W)
    (key : Nat) : DispatchOutcome W :=
  if key = K_ESCAPE then
    DispatchOutcome.terminate
  else
    DispatchOutcome.result none engine

/-- `HistoryViewer.ev_keydown`: conditional cursor movement with wrap at the
edges and clamping in between; Home and End jump to the ends; any other key
moves back to the main game state. -/
def HistoryViewer.ev_keydown (hv : HistoryViewer) (key : Nat) :
    HistoryKeyResult :=
  match CURSOR_Y_KEYS key with
  | some adjust =>
    if adjust < 0 ∧ hv.cursor = 0 then
      -- Only move from the top to the bottom when you're on the edge.
      HistoryKeyResult.stay { hv with cursor := (hv.log_length : Int) - 1 }
    else if adjust > 0 ∧ hv.cursor = (hv.log_length : Int) - 1 then
      -- Same with bottom to top movement.
      HistoryKeyResult.stay { hv with cursor := 0 }
    else
      -- Otherwise move while staying clamped to the bounds of the history log.
      HistoryKeyResult.stay
        { hv with
            cursor := max 0 (min (hv.cursor + adjust) ((hv.log_length : Int) - 1)) }
  | none =>
    if key = K_HOME then
      HistoryKeyResult.stay { hv with cursor := 0 }  -- Move directly to the top message.
    else if key = K_END then
      -- Move directly to the last message.
      HistoryKeyResult.stay { hv with cursor := (hv.log_length : Int) - 1 }
    else  -- Any other key moves back to the main game state.
      HistoryKeyResult.exitToMain

/-! ## Concrete states and actions for witnesses -/

/-- A concrete engine over a trivial world, used by closed witnesses. -/
def engUnit : Engine Unit :=
  { world := ()
    player := 0
    messageLog := []
    calls := []
    eventHandler := HandlerState.mainGame }

/-- A concrete engine over a numeric world, used by closed witnesses. -/
def engNat : Engine Nat :=
  { world := 3
    player := 0
    messageLog := [("Hello", Color.other)]
    calls := []
    eventHandler := HandlerState.askUser }

/-- A concrete always-succeeding action (increments the world). -/
def okAct : Action Nat := fun w => PerformResult.ok (w + 1)

/-- A concrete always-failing action. -/
def failAct : Action Nat := fun _ => PerformResult.impossible "That way is blocked."

/-! ## Claims -/

/-- Claim C1: when `perform` raises the recoverable `Impossible` condition,
`handle_action` appends exactly one message (the condition's message, in the
impossible style) to the message log and returns `false`; the call trace
gains no enemy-turn pass and no visibility refresh, and every engine field
other than the log is unchanged. -/
theorem handle_action_impossible {W : Type} (engine : Engine W)
    (act : Action W) (msg : String)
    (h : act engine.world = PerformResult.impossible msg) :
    EventHandler.handle_action engine (some act) =
      ({ engine with
          messageLog := engine.messageLog ++ [(msg, Color.impossible)] },
       false) := by
  simp only [EventHandler.handle_action, h]

/-- Witness for C1 at a concrete failing action. -/
theorem handle_action_impossible_witness :
    EventHandler.handle_action engNat (some failAct) =
      ({ engNat with
          messageLog :=
            engNat.messageLog ++ [("That way is blocked.", Color.impossible)] },
       false) :=
  handle_action_impossible engNat failAct "That way is blocked." rfl

/-- Claim C2: when `perform` succeeds, `handle_action` appends exactly one
enemy-turn pass followed by exactly one visibility refresh to the call
trace, in that order, and returns `true`; on a `none` action it returns
`false` with the engine untouched. -/
theorem handle_action_success {W : Type} (engine : Engine W)
    (act : Action W) (w : W)
    (h : act engine.world = PerformResult.ok w) :
    EventHandler.handle_action engine (some act) =
      ({ engine with
          world := w
          calls := engine.calls ++
            [EngineCall.handleEnemyTurns, EngineCall.updateFov] },
       true) ∧
    EventHandler.handle_action engine none = (engine, false) := by
  constructor
  · simp only [EventHandler.handle_action, h, List.append_assoc]
    rfl
  · rfl

/-- Witness for C2 at a concrete succeeding action. -/
theorem handle_action_success_witness :
    (EventHandler.handle_action engNat (some okAct) =
      ({ engNat with
          world := 4
          calls := engNat.calls ++
            [EngineCall.handleEnemyTurns, EngineCall.updateFov] },
       true)) ∧
    EventHandler.handle_action engNat none = (engNat, false) :=
  handle_action_success engNat okAct 4 rfl

/-- Claim C3: in the history viewer with a non-empty log, a vertical
navigation key with step `s` wraps from the top edge to the bottom when the
step is negative and the cursor is `0`, wraps from the bottom edge to the
top when the step is positive and the cursor is `log_length - 1`, and
otherwise moves by `s` clamped to `[0, log_length - 1]`. -/
theorem historyViewer_nav (hv : HistoryViewer) (key : Nat) (s : Int)
    (_hlen : 0 < hv.log_length) (hkey : CURSOR_Y_KEYS key = some s) :
    HistoryViewer.ev_keydown hv key =
      HistoryKeyResult.stay
        { hv with
            cursor :=
              if s < 0 ∧ hv.cursor = 0 then (hv.log_length : Int) - 1
              else if s > 0 ∧ hv.cursor = (hv.log_length : Int) - 1 then 0
              else max 0 (min (hv.cursor + s) ((hv.log_length : Int) - 1)) } := by
  simp only [HistoryViewer.ev_keydown, hkey]
  split_ifs <;> rfl

/-- Witness for C3: log of length 5, cursor at the top, an up step wraps to
the bottom. -/
theorem historyViewer_nav_witness :
    0 < (5 : Nat) ∧
    HistoryViewer.ev_keydown ⟨5, 0⟩ K_UP = HistoryKeyResult.stay ⟨5, 4⟩ := by
  refine ⟨by decide, ?_⟩
  rw [historyViewer_nav ⟨5, 0⟩ K_UP (-1) (by decide) (by decide)]
  decide

/-- Counterexample to C4: entered with an empty log the cursor is `-1`, but
the up key is not a no-op — it moves the cursor to `0`. -/
theorem historyViewer_empty_not_noop :
    HistoryViewer.ev_keydown ⟨0, -1⟩ K_UP = HistoryKeyResult.stay ⟨0, 0⟩ ∧
    (0 : Int) ≠ -1 := by
  decide

/-- Claim C4 (amended): when the history viewer is entered with
`log_length = 0` the cursor is set to the sentinel `-1`, but the vertical
navigation keys are not no-ops: each of up, down, page up and page down
moves the cursor from `-1` to `0`. -/
theorem historyViewer_empty_log {W : Type} (engine : Engine W) (key : Nat)
    (s : Int) (hlog : engine.messageLog = [])
    (hkey : CURSOR_Y_KEYS key = some s) :
    (HistoryViewer.init engine).cursor = -1 ∧
    HistoryViewer.ev_keydown (HistoryViewer.init engine) key =
      HistoryKeyResult.stay ⟨0, 0⟩ := by
  have hinit : HistoryViewer.init engine = ⟨0, -1⟩ := by
    simp [HistoryViewer.init, hlog]
  rw [hinit]
  refine ⟨rfl, ?_⟩
  unfold CURSOR_Y_KEYS at hkey
  split_ifs at hkey with h1 h2 h3 h4
  · subst h1; decide
  · subst h2; decide
  · subst h3; decide
  · subst h4; decide

/-- Witness for C4 (amended) on an engine with an empty log and the down
key. -/
theorem historyViewer_empty_log_witness :
    (HistoryViewer.init engUnit).cursor = -1 ∧
    HistoryViewer.ev_keydown (HistoryViewer.init engUnit) K_DOWN =
      HistoryKeyResult.stay ⟨0, 0⟩ :=
  historyViewer_empty_log engUnit K_DOWN 1 rfl (by decide)

/-- Claim C10: over a non-empty log the viewer invariant
`0 ≤ cursor ≤ log_length - 1` holds on entry (the cursor starts at
`log_length - 1`) and is preserved by every key-down that stays in the
viewer, which also never changes `log_length`. -/
theorem historyViewer_cursor_invariant {W : Type} (engine : Engine W)
    (hv hv' : HistoryViewer) (key : Nat) :
    (1 ≤ (HistoryViewer.init engine).log_length →
      0 ≤ (HistoryViewer.init engine).cursor ∧
      (HistoryViewer.init engine).cursor ≤
        ((HistoryViewer.init engine).log_length : Int) - 1) ∧
    (1 ≤ hv.log_length → 0 ≤ hv.cursor →
      hv.cursor ≤ (hv.log_length : Int) - 1 →
      HistoryViewer.ev_keydown hv key = HistoryKeyResult.stay hv' →
      (0 ≤ hv'.cursor ∧ hv'.cursor ≤ ((hv'.log_length : Int) - 1)) ∧
      hv'.log_length = hv.log_length) := by
  constructor
  · intro h
    simp only [HistoryViewer.init] at h ⊢
    omega
  · intro hlen h0 h1 hstep
    cases hk : CURSOR_Y_KEYS key with
    | some s =>
      simp only [HistoryViewer.ev_keydown, hk] at hstep
      split_ifs at hstep <;>
        · injection hstep with h
          subst h
          refine ⟨?_, rfl⟩
          dsimp only
          omega
    | none =>
      simp only [HistoryViewer.ev_keydown, hk] at hstep
      split_ifs at hstep
      · injection hstep with h
        subst h
        refine ⟨?_, rfl⟩
        dsimp only
        omega
      · injection hstep with h
        subst h
        refine ⟨?_, rfl⟩
        dsimp only
        omega

/-- Witness for C10: entry invariant on a one-message engine, and
preservation on a page-down from `⟨5, 2⟩` to `⟨5, 4⟩`. -/
theorem historyViewer_cursor_invariant_witness :
    (0 ≤ (HistoryViewer.init engNat).cursor ∧
      (HistoryViewer.init engNat).cursor ≤
        ((HistoryViewer.init engNat).log_length : Int) - 1) ∧
    ((0 ≤ ((⟨5, 4⟩ : HistoryViewer)).cursor ∧
      (⟨5, 4⟩ : HistoryViewer).cursor ≤
        (((⟨5, 4⟩ : HistoryViewer)).log_length : Int) - 1) ∧
      (⟨5, 4⟩ : HistoryViewer).log_length =
        (⟨5, 2⟩ : HistoryViewer).log_length) :=
  ⟨(historyViewer_cursor_invariant engNat ⟨5, 2⟩ ⟨5, 4⟩ K_PAGEDOWN).1
      (by decide),
   (historyViewer_cursor_invariant engNat ⟨5, 2⟩ ⟨5, 4⟩ K_PAGEDOWN).2
      (by decide) (by decide) (by decide) (by decide)⟩

/-- Counterexample to C5: the numpad-5 key is in the wait set, yet its
dispatch in the main play handler yields a bump action with offset
`(0, 0)` — not a wait action — because the movement table contains
numpad-5 as well and is consulted first. -/
theorem wait_key_kp5_counterexample :
    WAIT_KEYS K_KP_5 = true ∧
    MainGameEventHandler.ev_keydown engUnit K_KP_5 =
      (some (GameAction.bump 0 0 0), engUnit) ∧
    some (GameAction.bump 0 0 0) ≠ some (GameAction.wait 0) := by
  decide

/-- Claim C5 (amended): for every key in the wait set that is not in the
movement table (period and clear), dispatching that key-down in the main
play handler produces a wait action for the player and no movement offset;
the numpad-5 key, present in both tables, instead produces a bump action
with offset `(0, 0)`. -/
theorem wait_keys_wait {W : Type} (engine : Engine W) (key : Nat)
    (hmove : MOVE_KEYS key = none) (hwait : WAIT_KEYS key = true) :
    MainGameEventHandler.ev_keydown engine key =
      (some (GameAction.wait engine.player), engine) := by
  simp [MainGameEventHandler.ev_keydown, hmove, hwait]

/-- Witness for C5 (amended) at the period key. -/
theorem wait_keys_wait_witness :
    MainGameEventHandler.ev_keydown engUnit K_PERIOD =
      (some (GameAction.wait engUnit.player), engUnit) :=
  wait_keys_wait engUnit K_PERIOD (by decide) (by decide)

/-- Claim C6: for every key in the movement table, dispatching that
key-down in the main play handler produces a bump action against the
player actor carrying exactly the offset the table maps the key to. -/
theorem move_keys_bump {W : Type} (engine : Engine W) (key : Nat)
    (dx dy : Int) (h : MOVE_KEYS key = some (dx, dy)) :
    MainGameEventHandler.ev_keydown engine key =
      (some (GameAction.bump engine.player dx dy), engine) := by
  simp only [MainGameEventHandler.ev_keydown, h]

/-- Witness for C6 at the vi key `n`, mapped to `(1, 1)`. -/
theorem move_keys_bump_witness :
    MainGameEventHandler.ev_keydown engUnit K_n =
      (some (GameAction.bump engUnit.player 1 1), engUnit) :=
  move_keys_bump engUnit K_n 1 1 (by decide)

/-- Claim C7: when the modal-prompt handler performs an action
successfully, the active handler is swapped back to the main play handler
and `handle_action` returns `true`; on a failed or absent action the
handler field is untouched and it returns `false`. -/
theorem askUser_handle_action {W : Type} (engine : Engine W)
    (act : Action W) (w : W) (msg : String) :
    (act engine.world = PerformResult.ok w →
      AskUserEventHandler.handle_action engine (some act) =
        ({ engine with
            world := w
            calls := engine.calls ++
              [EngineCall.handleEnemyTurns, EngineCall.updateFov]
            eventHandler := HandlerState.mainGame }, true)) ∧
    (act engine.world = PerformResult.impossible msg →
      AskUserEventHandler.handle_action engine (some act) =
        ({ engine with
            messageLog := engine.messageLog ++ [(msg, Color.impossible)] },
         false)) ∧
    AskUserEventHandler.handle_action engine none = (engine, false) := by
  refine ⟨?_, ?_, rfl⟩
  · intro h
    simp only [AskUserEventHandler.handle_action, EventHandler.handle_action,
      h, List.append_assoc]
    rfl
  · intro h
    simp only [AskUserEventHandler.handle_action, EventHandler.handle_action,
      h]
    rfl

/-- Witness for C7: a succeeding action swaps back to main play, a failing
one does not. -/
theorem askUser_handle_action_witness :
    (AskUserEventHandler.handle_action engNat (some okAct) =
      ({ engNat with
          world := 4
          calls := engNat.calls ++
            [EngineCall.handleEnemyTurns, EngineCall.updateFov]
          eventHandler := HandlerState.mainGame }, true)) ∧
    (AskUserEventHandler.handle_action engNat (some failAct) =
      ({ engNat with
          messageLog :=
            engNat.messageLog ++ [("That way is blocked.", Color.impossible)] },
       false)) :=
  ⟨(askUser_handle_action engNat okAct 4 "unused").1 rfl,
   (askUser_handle_action engNat failAct 4 "That way is blocked.").2.1 rfl⟩

/-- Claim C8: in the modal-prompt handler, any non-modifier key-down swaps
the active handler back to main play and yields no action; a pure modifier
key yields no action and no swap. -/
theorem askUser_keydown {W : Type} (engine : Engine W) (key : Nat) :
    (MODIFIER_KEYS key = false →
      AskUserEventHandler.ev_keydown engine key =
        (none, { engine with eventHandler := HandlerState.mainGame })) ∧
    (MODIFIER_KEYS key = true →
      AskUserEventHandler.ev_keydown engine key = (none, engine)) := by
  constructor
  · intro h
    simp [AskUserEventHandler.ev_keydown, AskUserEventHandler.on_exit, h]
  · intro h
    simp [AskUserEventHandler.ev_keydown, h]

/-- Witness for C8: the `v` key exits the prompt, the left-shift key is
ignored. -/
theorem askUser_keydown_witness :
    (AskUserEventHandler.ev_keydown engNat K_v =
      (none, { engNat with eventHandler := HandlerState.mainGame })) ∧
    AskUserEventHandler.ev_keydown engNat K_LSHIFT = (none, engNat) :=
  ⟨(askUser_keydown engNat K_v).1 (by decide),
   (askUser_keydown engNat K_LSHIFT).2 (by decide)⟩

/-- Claim C9: in the game-over handler, the escape key terminates the
process and every other key produces no action, no termination and no
handler change. -/
theorem gameOver_keydown {W : Type} (engine : Engine W) (key : Nat) :
    (key = K_ESCAPE →
      GameOverEventHandler.ev_keydown engine key =
        DispatchOutcome.terminate) ∧
    (key ≠ K_ESCAPE →
      GameOverEventHandler.ev_keydown engine key =
        DispatchOutcome.result none engine) := by
  constructor
  · intro h
    simp [GameOverEventHandler.ev_keydown, h]
  · intro h
    simp [GameOverEventHandler.ev_keydown, h]

/-- Witness for C9: escape terminates, the `v` key is ignored with the
engine untouched. -/
theorem gameOver_keydown_witness :
    GameOverEventHandler.ev_keydown engUnit K_ESCAPE =
      DispatchOutcome.terminate ∧
    GameOverEventHandler.ev_keydown engUnit K_v =
      DispatchOutcome.result none engUnit :=
  ⟨(gameOver_keydown engUnit K_ESCAPE).1 rfl,
   (gameOver_keydown engUnit K_v).2 (by decide)⟩

end Roguelike
